import Mathlib

/-!
Shallow embedding of the `proveedores_app` frontend (React single-page app).

The source is TypeScript running in a browser; we model it as follows:
* JS numbers are IEEE doubles; all numeric values appearing in the claims
  (integer quantities, `123.4 / 10`, comparisons against `0`) are exact both
  in doubles and in `Rat`, so numbers are embedded as `Rat`.
* Asynchronous handlers are embedded as state-transition functions: the
  handler receives the outcomes of the network calls it awaits (as
  `FetchResult` oracles) and returns the final component state together with
  the list of requests it actually issued.
* `localStorage.getItem` returns `null` or a string: `Option String`.
  JS truthiness of such a value (`if (token)`) is false exactly on `null`
  and on the empty string.
* `Array.prototype.sort` with the comparator `(a, b) => b.q - a.q` is,
  per the ECMAScript spec, a stable sort with `a` kept before `b` whenever
  the comparator is ≤ 0, i.e. a stable sort by the total preorder
  `b.q ≤ a.q`; it is embedded as `List.insertionSort`, which is stable and
  sorts by the same relation.

Two variants of the dashboard page exist side by side in the repository:
the legacy one (`src/frontend/src/pages/Dashboard.tsx`, manual supplier id,
`fetchSales(dateFrom, dateTo, supplierId)`) and the current one
(`src/unnamed/part_000`, dates only, `fetchSalesPeriod`). Both are embedded.
-/

/-- Outcome of an awaited network call: a resolved payload or a rejection
(the thrown error's content is never inspected by the views). -/
inductive FetchResult (α : Type) where
  | ok (v : α)
  | err
  deriving DecidableEq

/-- JS truthiness of a `localStorage.getItem` result: `null` and the empty
string are falsy, every other string is truthy. -/
def jsTruthyStr : Option String → Bool
  | none => false
  | some s => !s.isEmpty

/-- A row of the legacy sales response (`Dashboard.tsx`, `ProductRow`). -/
structure ProductRow where
  productId : Int
  name : String
  quantitySales : Rat
  totalQuantity : Rat
  totalSales : Rat
  totalSalesMainCurrency : Rat
  deriving DecidableEq

/-- An inventory row (`InventoryItem` in both dashboard variants). -/
structure InventoryItem where
  product_id : Int
  name : String
  total_quantity : Rat
  deriving DecidableEq

/-- A conciliation record (`ConciliationItem` in both dashboard variants). -/
structure ConciliationItem where
  id : Int
  range_label : String
  orders : Rat
  sales_qty : Rat
  revenue : Rat
  discounts : Rat
  total : Rat
  created_at : String
  deriving DecidableEq

/-- The response of the legacy `fetchSales` call as consumed by
`Dashboard.tsx` (`saleId`, `products`, `totalSales`, `totalUnits`). -/
structure SalesResponse where
  saleId : Int
  products : List ProductRow
  totalSales : Rat
  totalUnits : Rat
  deriving DecidableEq

/-- The network requests `handleFetchSales` can issue. -/
inductive ApiRequest where
  | sales
  | inventory
  deriving DecidableEq

/-- Local state of the legacy dashboard (`Dashboard.tsx`): `supplierId` is
`number | ''` in the source, embedded as `Option Int` (`none` = `''`). -/
structure LegacyDashState where
  supplierId : Option Int
  dateFrom : String
  dateTo : String
  loading : Bool
  saleId : Option Int
  products : List ProductRow
  totalSales : Rat
  totalUnits : Rat
  inventory : List InventoryItem
  conciliations : List ConciliationItem
  error : String
  deriving DecidableEq

/-- JS falsiness of the `number | ''` field `supplierId`: the empty string
is falsy and so is the number `0`. -/
def jsFalsyNumOrEmpty : Option Int → Bool
  | none => true
  | some n => n == 0

/-- The validation guard of the legacy `handleFetchSales`:
`!dateFrom || !dateTo || !supplierId`. -/
def LegacyDashState.invalid (s : LegacyDashState) : Bool :=
  s.dateFrom.isEmpty || s.dateTo.isEmpty || jsFalsyNumOrEmpty s.supplierId

/-- `[...response.products].sort((a, b) => b.quantitySales - a.quantitySales)`:
a stable sort by descending `quantitySales`. -/
def legacySortProducts (l : List ProductRow) : List ProductRow :=
  List.insertionSort (fun a b => b.quantitySales ≤ a.quantitySales) l

/-- The legacy `handleFetchSales` (`Dashboard.tsx`): validate, then await
`fetchSales`; on success store the response (products sorted descending by
quantity) and await `getInventory`; any rejection is caught and surfaced as
the generic error text; `loading` is reset in the `finally` block. The
returned list records the requests actually issued, in order. -/
def legacyHandleFetchSales (s : LegacyDashState)
    (salesRes : FetchResult SalesResponse)
    (invRes : FetchResult (List InventoryItem)) :
    LegacyDashState × List ApiRequest :=
  if s.invalid then
    ({ s with error := "Debe completar proveedor y fechas." }, [])
  else
    match salesRes with
    | .err =>
        ({ s with error := "Error al obtener ventas.", loading := false },
         [.sales])
    | .ok r =>
        let s2 : LegacyDashState :=
          { s with
            error := "", saleId := some r.saleId,
            products := legacySortProducts r.products,
            totalSales := r.totalSales, totalUnits := r.totalUnits }
        match invRes with
        | .err =>
            ({ s2 with error := "Error al obtener ventas.", loading := false },
             [.sales, .inventory])
        | .ok inv =>
            ({ s2 with inventory := inv, loading := false },
             [.sales, .inventory])

/-- A raw item of the `fetchSalesPeriod` response (`src/unnamed/part_000`). -/
structure PeriodItem where
  product_id : String
  product_name : String
  quantity : Rat
  total_amount : Rat
  currency : Option String
  deriving DecidableEq

/-- A mapped product row of the current dashboard (`ProductRow` in
`src/unnamed/part_000`). -/
structure PeriodProductRow where
  productId : String
  name : String
  quantity : Rat
  totalAmount : Rat
  currency : Option String
  deriving DecidableEq

/-- The `fetchSalesPeriod` response: `data` may be absent
(`response.data || []` in the source), plus `total_sales`, `total_units`. -/
structure PeriodResponse where
  data : Option (List PeriodItem)
  total_sales : Rat
  total_units : Rat
  deriving DecidableEq

/-- Local state of the current dashboard (`src/unnamed/part_000`):
no supplier-id field. -/
structure PeriodDashState where
  dateFrom : String
  dateTo : String
  loading : Bool
  products : List PeriodProductRow
  totalSales : Rat
  totalUnits : Rat
  inventory : List InventoryItem
  conciliations : List ConciliationItem
  error : String
  deriving DecidableEq

/-- The validation guard of the current `handleFetchSales`:
`!dateFrom || !dateTo`. -/
def PeriodDashState.invalid (s : PeriodDashState) : Bool :=
  s.dateFrom.isEmpty || s.dateTo.isEmpty

/-- The item-to-row mapping applied to `response.data` in
`src/unnamed/part_000`. -/
def mapPeriodItem (it : PeriodItem) : PeriodProductRow :=
  { productId := it.product_id, name := it.product_name,
    quantity := it.quantity, totalAmount := it.total_amount,
    currency := it.currency }

/-- `(response.data || []).map(...)`: an absent `data` field is replaced by
the empty array (a present array, even empty, is truthy in JS). -/
def periodRows (r : PeriodResponse) : List PeriodProductRow :=
  (r.data.getD []).map mapPeriodItem

/-- `items.sort((a, b) => b.quantity - a.quantity)`: a stable sort by
descending `quantity`. -/
def periodSortProducts (l : List PeriodProductRow) : List PeriodProductRow :=
  List.insertionSort (fun a b => b.quantity ≤ a.quantity) l

/-- The current `handleFetchSales` (`src/unnamed/part_000`): validate, then
await `fetchSalesPeriod`; on success map and sort the rows, store totals,
and await `getInventory`; any rejection is caught and surfaced as the
generic error text; `loading` is reset in the `finally` block. -/
def periodHandleFetchSales (s : PeriodDashState)
    (salesRes : FetchResult PeriodResponse)
    (invRes : FetchResult (List InventoryItem)) :
    PeriodDashState × List ApiRequest :=
  if s.invalid then
    ({ s with error := "Debe completar las fechas." }, [])
  else
    match salesRes with
    | .err =>
        ({ s with error := "Error al obtener ventas.", loading := false },
         [.sales])
    | .ok r =>
        let s2 : PeriodDashState :=
          { s with
            error := "",
            products := periodSortProducts (periodRows r),
            totalSales := r.total_sales, totalUnits := r.total_units }
        match invRes with
        | .err =>
            ({ s2 with error := "Error al obtener ventas.", loading := false },
             [.sales, .inventory])
        | .ok inv =>
            ({ s2 with inventory := inv, loading := false },
             [.sales, .inventory])

/-- JS `toFixed(2)` on the embedded numbers: the value rounded to the
nearest hundredth, rendered with a sign, the integer part, and exactly two
decimal digits. -/
def ratToFixed2 (x : Rat) : String :=
  let scaled : Int := round (x * 100)
  let sign := if scaled < 0 then "-" else ""
  let a := scaled.natAbs
  sign ++ toString (a / 100) ++ "." ++
    (if a % 100 < 10 then "0" else "") ++ toString (a % 100)

/-- The average-price cell of the summary cards, identical in both dashboard
variants: `totalUnits > 0 ? (totalSales / totalUnits).toFixed(2) : '0'`.
The division expression sits inside the branch taken only when
`totalUnits > 0`. -/
def avgPriceDisplay (totalSales totalUnits : Rat) : String :=
  if totalUnits > 0 then ratToFixed2 (totalSales / totalUnits) else "0"

/-- What the `RequireAuth` wrapper in `App.tsx` renders. -/
inductive GateOutcome where
  | navigateLogin
  | renderChildren
  deriving DecidableEq

/-- `RequireAuth` (`App.tsx`): read `localStorage.getItem('token')`; if the
value is falsy, render a redirect to `/login` instead of the children. -/
def requireAuth (token : Option String) : GateOutcome :=
  if jsTruthyStr token then .renderChildren else .navigateLogin

/-- The current-user profile returned by `GET /me` (only the field the
dashboard reads is modelled). -/
structure UserProfile where
  supplierIdTecopos : Option Int
  deriving DecidableEq

/-- Effect of the dashboard mount hook on the session. -/
inductive MountOutcome where
  | setUser (u : UserProfile)
  | navigateLogin
  deriving DecidableEq

/-- The mount hook of both dashboard variants: await `getCurrentUser()`; on
success store the profile in state, on rejection `navigate('/login')`. -/
def dashboardMountAuth (res : FetchResult UserProfile) : MountOutcome :=
  match res with
  | .ok u => .setUser u
  | .err => .navigateLogin

/-- The part of an axios request config the interceptor touches. -/
structure RequestConfig where
  authorization : Option String
  deriving DecidableEq

/-- The request interceptor of `services/api.ts`: read the stored token;
when it is truthy, set the Authorization header to the Bearer value;
otherwise pass the config through unchanged. -/
def injectToken (storage : Option String) (c : RequestConfig) : RequestConfig :=
  match storage with
  | none => c
  | some t =>
      if t.isEmpty then c
      else { c with authorization := some ("Bearer " ++ t) }

/-- The UI event handlers and mount hooks of the application, viewed through
their effect on the browser token store. `loginSubmitOk` carries the
`access_token` of the resolved login response. -/
inductive AppOp where
  | loginSubmitOk (accessToken : String)
  | loginSubmitErr
  | registerSubmit (ok : Bool)
  | dashboardMountOk
  | dashboardMountErr
  | dashboardFetchSales
  | dashboardSaveConciliation
  | conciliationsLoad
  deriving DecidableEq

/-- Effect of each handler on the `token` entry of `localStorage`: the sole
write in the repository is `localStorage.setItem('token', data.access_token)`
in `LoginPage.handleSubmit` on a resolved login; no handler anywhere calls
`removeItem` or `clear`. -/
def storageAfter : AppOp → Option String → Option String
  | .loginSubmitOk t, _ => some t
  | .loginSubmitErr, s => s
  | .registerSubmit _, s => s
  | .dashboardMountOk, s => s
  | .dashboardMountErr, s => s
  | .dashboardFetchSales, s => s
  | .dashboardSaveConciliation, s => s
  | .conciliationsLoad, s => s

/-- C1: submitting the report form with an empty date-from or date-to field
issues no network request and only sets the validation message: in both
dashboard variants the handler returns the input state with just `error`
changed (products, totals, inventory, conciliations and the rest untouched),
paired with an empty request list. -/
theorem C1_empty_dates_block
    (s : LegacyDashState) (sr : FetchResult SalesResponse)
    (ir : FetchResult (List InventoryItem))
    (t : PeriodDashState) (tr : FetchResult PeriodResponse)
    (jr : FetchResult (List InventoryItem))
    (hs : s.dateFrom.isEmpty = true ∨ s.dateTo.isEmpty = true)
    (ht : t.dateFrom.isEmpty = true ∨ t.dateTo.isEmpty = true) :
    legacyHandleFetchSales s sr ir =
      ({ s with error := "Debe completar proveedor y fechas." }, []) ∧
    periodHandleFetchSales t tr jr =
      ({ t with error := "Debe completar las fechas." }, []) := by
  constructor
  · have h : s.invalid = true := by
      unfold LegacyDashState.invalid
      rcases hs with h | h <;> simp [h]
    simp [legacyHandleFetchSales, h]
  · have h : t.invalid = true := by
      unfold PeriodDashState.invalid
      rcases ht with h | h <;> simp [h]
    simp [periodHandleFetchSales, h]

/-- A concrete legacy dashboard state with an empty date-from field. -/
def c1LegacyState : LegacyDashState :=
  { supplierId := some 7, dateFrom := "", dateTo := "2025-10-02T00:00",
    loading := false, saleId := none, products := [], totalSales := 0,
    totalUnits := 0, inventory := [], conciliations := [], error := "" }

/-- A concrete current-variant dashboard state with an empty date-from
field. -/
def c1PeriodState : PeriodDashState :=
  { dateFrom := "", dateTo := "2025-10-02T00:00", loading := false,
    products := [], totalSales := 0, totalUnits := 0, inventory := [],
    conciliations := [], error := "" }

/-- Witness for C1 at concrete states whose date-from field is empty. -/
theorem C1_empty_dates_block_witness :
    legacyHandleFetchSales c1LegacyState .err .err =
      ({ c1LegacyState with error := "Debe completar proveedor y fechas." }, []) ∧
    periodHandleFetchSales c1PeriodState .err .err =
      ({ c1PeriodState with error := "Debe completar las fechas." }, []) :=
  C1_empty_dates_block c1LegacyState .err .err c1PeriodState .err .err
    (Or.inl (by decide)) (Or.inl (by decide))

/-- C9: in the legacy report view the guard is `!dateFrom || !dateTo ||
!supplierId`, and the number `0` is falsy, so a supplier id equal to `0` is
rejected exactly like a missing one even when both dates are non-empty: no
request is issued, the validation message is set, and the result coincides
(up to the stored supplier field) with that of the same state whose supplier
id is absent. -/
theorem C9_zero_supplier_falsy
    (s : LegacyDashState) (sr : FetchResult SalesResponse)
    (ir : FetchResult (List InventoryItem))
    (h0 : s.supplierId = some 0)
    (hf : s.dateFrom.isEmpty = false) (ht : s.dateTo.isEmpty = false) :
    legacyHandleFetchSales s sr ir =
      ({ s with error := "Debe completar proveedor y fechas." }, []) ∧
    legacyHandleFetchSales { s with supplierId := none } sr ir =
      ({ s with supplierId := none, error := "Debe completar proveedor y fechas." }, []) := by
  have h : s.invalid = true := by
    unfold LegacyDashState.invalid
    simp [h0, jsFalsyNumOrEmpty]
  have h2 : LegacyDashState.invalid { s with supplierId := none } = true := by
    unfold LegacyDashState.invalid
    simp [jsFalsyNumOrEmpty]
  constructor
  · simp [legacyHandleFetchSales, h]
  · simp [legacyHandleFetchSales, h2]

/-- A concrete legacy dashboard state with both dates filled and the
supplier id set to the number 0. -/
def c9State : LegacyDashState :=
  { supplierId := some 0, dateFrom := "2025-10-01T00:00",
    dateTo := "2025-10-02T00:00", loading := false, saleId := none,
    products := [], totalSales := 0, totalUnits := 0, inventory := [],
    conciliations := [], error := "" }

/-- Witness for C9 at a concrete state with supplier id 0 and non-empty
dates. -/
theorem C9_zero_supplier_falsy_witness :
    legacyHandleFetchSales c9State .err .err =
      ({ c9State with error := "Debe completar proveedor y fechas." }, []) ∧
    legacyHandleFetchSales { c9State with supplierId := none } .err .err =
      ({ c9State with supplierId := none, error := "Debe completar proveedor y fechas." }, []) :=
  C9_zero_supplier_falsy c9State .err .err (by decide) (by decide) (by decide)

/-- C10: whenever the local validation passes, `handleFetchSales` terminates
with `loading = false` — the flag is reset in the `finally` block — in both
dashboard variants and for every combination of request outcomes. -/
theorem C10_loading_reset
    (s : LegacyDashState) (sr : FetchResult SalesResponse)
    (ir : FetchResult (List InventoryItem))
    (t : PeriodDashState) (tr : FetchResult PeriodResponse)
    (jr : FetchResult (List InventoryItem))
    (hs : s.invalid = false) (ht : t.invalid = false) :
    (legacyHandleFetchSales s sr ir).1.loading = false ∧
    (periodHandleFetchSales t tr jr).1.loading = false := by
  constructor
  · cases sr <;> cases ir <;> simp [legacyHandleFetchSales, hs]
  · cases tr <;> cases jr <;> simp [periodHandleFetchSales, ht]

/-- A concrete legacy dashboard state that passes validation. -/
def c10LegacyState : LegacyDashState :=
  { supplierId := some 362, dateFrom := "2025-10-01T00:00",
    dateTo := "2025-10-02T00:00", loading := false, saleId := none,
    products := [], totalSales := 0, totalUnits := 0, inventory := [],
    conciliations := [], error := "" }

/-- A concrete current-variant dashboard state that passes validation. -/
def c10PeriodState : PeriodDashState :=
  { dateFrom := "2025-10-01T00:00", dateTo := "2025-10-02T00:00",
    loading := false, products := [], totalSales := 0, totalUnits := 0,
    inventory := [], conciliations := [], error := "" }

/-- Witness for C10 at concrete valid states with failing requests. -/
theorem C10_loading_reset_witness :
    (legacyHandleFetchSales c10LegacyState .err .err).1.loading = false ∧
    (periodHandleFetchSales c10PeriodState .err .err).1.loading = false :=
  C10_loading_reset c10LegacyState .err .err c10PeriodState .err .err
    (by decide) (by decide)

instance : IsTotal ProductRow (fun a b => b.quantitySales ≤ a.quantitySales) :=
  ⟨fun a b => le_total b.quantitySales a.quantitySales⟩

instance : IsTrans ProductRow (fun a b => b.quantitySales ≤ a.quantitySales) :=
  ⟨fun _ _ _ h1 h2 => le_trans h2 h1⟩

instance : IsTotal PeriodProductRow (fun a b => b.quantity ≤ a.quantity) :=
  ⟨fun a b => le_total b.quantity a.quantity⟩

instance : IsTrans PeriodProductRow (fun a b => b.quantity ≤ a.quantity) :=
  ⟨fun _ _ _ h1 h2 => le_trans h2 h1⟩

/-- A concrete current-variant state passing validation, for C2. -/
def c2State : PeriodDashState :=
  { dateFrom := "2025-10-01T00:00", dateTo := "2025-10-02T00:00",
    loading := false, products := [], totalSales := 0, totalUnits := 0,
    inventory := [], conciliations := [], error := "" }

/-- A concrete response whose rows carry the quantities 5, 9, 1. -/
def c2Response : PeriodResponse :=
  { data := some
      [ { product_id := "p1", product_name := "A", quantity := 5,
          total_amount := 10, currency := none },
        { product_id := "p2", product_name := "B", quantity := 9,
          total_amount := 18, currency := none },
        { product_id := "p3", product_name := "C", quantity := 1,
          total_amount := 2, currency := none } ],
    total_sales := 30, total_units := 15 }

/-- A concrete legacy state passing validation, for the C2 witness. -/
def c2LegacyState : LegacyDashState :=
  { supplierId := some 362, dateFrom := "2025-10-01T00:00",
    dateTo := "2025-10-02T00:00", loading := false, saleId := none,
    products := [], totalSales := 0, totalUnits := 0, inventory := [],
    conciliations := [], error := "" }

/-- C2: on every successful sales response (and whatever the follow-up
inventory outcome) the rendered product list is exactly the rows of that
response stably sorted by descending per-product quantity — a permutation of
the response rows that is pairwise descending — recomputed from the latest
response regardless of the previous state; in particular for a response with
row quantities 5, 9, 1 the rendered quantities are 9, 5, 1. Both dashboard
variants are covered. -/
theorem C2_products_sorted_desc
    (s : LegacyDashState) (r : SalesResponse)
    (ir : FetchResult (List InventoryItem))
    (t : PeriodDashState) (q : PeriodResponse)
    (jr : FetchResult (List InventoryItem))
    (hs : s.invalid = false) (ht : t.invalid = false) :
    ((legacyHandleFetchSales s (.ok r) ir).1.products =
        legacySortProducts r.products ∧
      (legacySortProducts r.products).Perm r.products ∧
      (legacySortProducts r.products).Pairwise
        (fun a b => b.quantitySales ≤ a.quantitySales)) ∧
    ((periodHandleFetchSales t (.ok q) jr).1.products =
        periodSortProducts (periodRows q) ∧
      (periodSortProducts (periodRows q)).Perm (periodRows q) ∧
      (periodSortProducts (periodRows q)).Pairwise
        (fun a b => b.quantity ≤ a.quantity)) ∧
    ((periodHandleFetchSales c2State (.ok c2Response) (.ok [])).1.products.map
        (fun p => p.quantity)) = [9, 5, 1] := by
  refine ⟨⟨?_, ?_, ?_⟩, ⟨?_, ?_, ?_⟩, ?_⟩
  · cases ir <;> simp [legacyHandleFetchSales, hs]
  · exact List.perm_insertionSort _ _
  · exact List.sorted_insertionSort _ _
  · cases jr <;> simp [periodHandleFetchSales, ht]
  · exact List.perm_insertionSort _ _
  · exact List.sorted_insertionSort _ _
  · decide

/-- Witness for C2 at concrete states and the 5, 9, 1 response. -/
theorem C2_products_sorted_desc_witness :
    ((periodHandleFetchSales c2State (.ok c2Response) (.ok [])).1.products.map
        (fun p => p.quantity)) = [9, 5, 1] :=
  (C2_products_sorted_desc c2LegacyState ⟨1, [], 0, 0⟩ .err
    c2State c2Response (.ok []) (by decide) (by decide)).2.2

/-- The product row rendered before the C3 submission. -/
def c3OldRow : ProductRow :=
  { productId := 1, name := "Viejo", quantitySales := 2, totalQuantity := 2,
    totalSales := 4, totalSalesMainCurrency := 4 }

/-- The product row delivered by the C3 sales response. -/
def c3NewRow : ProductRow :=
  { productId := 2, name := "Nuevo", quantitySales := 3, totalQuantity := 3,
    totalSales := 6, totalSalesMainCurrency := 6 }

/-- A concrete legacy state that already renders `c3OldRow` before the
submission. -/
def c3State : LegacyDashState :=
  { supplierId := some 362, dateFrom := "2025-10-01T00:00",
    dateTo := "2025-10-02T00:00", loading := false, saleId := some 1,
    products := [c3OldRow], totalSales := 4, totalUnits := 2,
    inventory := [], conciliations := [], error := "" }

/-- A concrete sales response carrying `c3NewRow`. -/
def c3Response : SalesResponse :=
  { saleId := 2, products := [c3NewRow], totalSales := 6, totalUnits := 3 }

/-- C3 counterexample: an execution in which an issued request fails — the
sales request succeeds and the follow-up inventory request fails — yet the
previously rendered products list is not left as it was: it now shows the
row of the new sales response instead of the old row, alongside the generic
error text. -/
theorem C3_failure_frame_cex :
    (legacyHandleFetchSales c3State (.ok c3Response) .err).1.error =
      "Error al obtener ventas." ∧
    (legacyHandleFetchSales c3State (.ok c3Response) .err).1.products =
      [c3NewRow] ∧
    c3State.products = [c3OldRow] ∧
    (legacyHandleFetchSales c3State (.ok c3Response) .err).1.products ≠
      c3State.products := by
  refine ⟨by decide, by decide, rfl, by decide⟩

/-- C3 amended: if the sales request itself fails, the previous state is
kept untouched except for the generic error text (and the reset loading
flag); if instead the follow-up inventory request fails, inventory and
conciliations are kept, the generic error text is shown, but products,
totals and (in the legacy variant) the sale id have already been replaced by
the data of the successful sales response. Both dashboard variants. -/
theorem C3_failure_frame_amended
    (s : LegacyDashState) (r : SalesResponse)
    (ir : FetchResult (List InventoryItem))
    (t : PeriodDashState) (q : PeriodResponse)
    (kr : FetchResult (List InventoryItem))
    (hs : s.invalid = false) (ht : t.invalid = false) :
    legacyHandleFetchSales s .err ir =
      ({ s with error := "Error al obtener ventas.", loading := false },
        [.sales]) ∧
    periodHandleFetchSales t .err kr =
      ({ t with error := "Error al obtener ventas.", loading := false },
        [.sales]) ∧
    legacyHandleFetchSales s (.ok r) .err =
      ({ s with
          error := "Error al obtener ventas.", loading := false,
          saleId := some r.saleId,
          products := legacySortProducts r.products,
          totalSales := r.totalSales, totalUnits := r.totalUnits },
        [.sales, .inventory]) ∧
    periodHandleFetchSales t (.ok q) .err =
      ({ t with
          error := "Error al obtener ventas.", loading := false,
          products := periodSortProducts (periodRows q),
          totalSales := q.total_sales, totalUnits := q.total_units },
        [.sales, .inventory]) := by
  refine ⟨?_, ?_, ?_, ?_⟩
  · simp [legacyHandleFetchSales, hs]
  · simp [periodHandleFetchSales, ht]
  · simp [legacyHandleFetchSales, hs]
  · simp [periodHandleFetchSales, ht]

/-- Witness for the amended C3 at the concrete state and response of the
counterexample. -/
theorem C3_failure_frame_amended_witness :
    legacyHandleFetchSales c3State (.ok c3Response) .err =
      ({ c3State with
          error := "Error al obtener ventas.", loading := false,
          saleId := some c3Response.saleId,
          products := legacySortProducts c3Response.products,
          totalSales := c3Response.totalSales,
          totalUnits := c3Response.totalUnits },
        [.sales, .inventory]) :=
  (C3_failure_frame_amended c3State c3Response .err c2State ⟨none, 0, 0⟩ .err
    (by decide) (by decide)).2.2.1

/-- C4: when `totalUnits = 0` the summary renders the literal string `"0"`
for the average price, whatever `totalSales` is: the conditional takes the
branch that does not contain the division expression, so no quotient (and no
NaN or Infinity) is ever produced. -/
theorem C4_zero_units_avg (ts : Rat) : avgPriceDisplay ts 0 = "0" := by
  simp [avgPriceDisplay]

/-- C5: with `totalSales = 123.4` and `totalUnits = 10` the rendered average
price is the string `"12.34"`; and in general, whenever `totalUnits > 0`,
the display is `toFixed(2)` of the quotient `totalSales / totalUnits`, i.e.
the quotient rounded to the nearest hundredth and printed with two decimal
digits. -/
theorem C5_avg_price :
    avgPriceDisplay (123.4 : Rat) 10 = "12.34" ∧
    ∀ ts tu : Rat, 0 < tu → avgPriceDisplay ts tu = ratToFixed2 (ts / tu) := by
  constructor
  · have hr : round ((123.4 : Rat) / 10 * 100) = 1234 := by
      rw [round_eq]; norm_num
    have hpos : (0 : Rat) < 10 := by norm_num
    simp only [avgPriceDisplay, ratToFixed2, if_pos hpos, hr]
    decide
  · intro ts tu h
    simp [avgPriceDisplay, h]

/-- Witness for the general part of C5 at `totalSales = 10`,
`totalUnits = 4`. -/
theorem C5_avg_price_witness :
    avgPriceDisplay 10 4 = ratToFixed2 (10 / 4) :=
  C5_avg_price.2 10 4 (by decide)

/-- C6: with no stored token, `RequireAuth` renders the redirect to the
login route instead of the dashboard children; and when the stored
credential is rejected by the current-user request, the dashboard mount hook
navigates to the login view. -/
theorem C6_auth_gate :
    requireAuth none = GateOutcome.navigateLogin ∧
    dashboardMountAuth .err = MountOutcome.navigateLogin :=
  ⟨rfl, rfl⟩

/-- C7 counterexample: when the stored value is the empty string, a token is
present in storage, yet the interceptor leaves the config unchanged and adds
no Authorization header — contradicting the claim that every request then
carries the Bearer header. -/
theorem C7_bearer_header_cex :
    (injectToken (some "") { authorization := none }).authorization = none ∧
    (injectToken (some "") { authorization := none }).authorization ≠
      some ("Bearer " ++ "") := by
  exact ⟨rfl, by decide⟩

/-- C7 amended: the interceptor adds `Authorization: Bearer <token>`
whenever a non-empty token is stored; with no stored token — and likewise
with the empty string stored, which is falsy in JS — the config passes
through unchanged and no Authorization header is added. -/
theorem C7_bearer_header
    (tok : String) (c : RequestConfig) (h : tok.isEmpty = false) :
    (injectToken (some tok) c).authorization = some ("Bearer " ++ tok) ∧
    (∀ c2 : RequestConfig, injectToken none c2 = c2) ∧
    (∀ c2 : RequestConfig, injectToken (some "") c2 = c2) := by
  refine ⟨?_, fun c2 => rfl, fun c2 => rfl⟩
  simp [injectToken, h]

/-- Witness for the amended C7 at a concrete non-empty token. -/
theorem C7_bearer_header_witness :
    (injectToken (some "abc") { authorization := none }).authorization =
      some ("Bearer " ++ "abc") :=
  (C7_bearer_header "abc" { authorization := none } (by decide)).1

/-- C8: lifecycle of the stored credential: every handler other than a
resolved login submission leaves the token store unchanged — in particular
the auth-failure path of the dashboard mount, which navigates to login
without clearing the token — a resolved login stores exactly the access
token of the login response, and no operation ever clears a stored token. -/
theorem C8_token_lifecycle :
    (∀ (op : AppOp) (s : Option String),
        (∀ tok, op ≠ AppOp.loginSubmitOk tok) → storageAfter op s = s) ∧
    (∀ (tok : String) (s : Option String),
        storageAfter (AppOp.loginSubmitOk tok) s = some tok) ∧
    (∀ s : Option String, storageAfter AppOp.dashboardMountErr s = s) ∧
    (∀ (op : AppOp) (s : String), storageAfter op (some s) ≠ none) := by
  refine ⟨?_, fun tok s => rfl, fun s => rfl, ?_⟩
  · intro op s h
    cases op with
    | loginSubmitOk tok => exact absurd rfl (h tok)
    | loginSubmitErr => rfl
    | registerSubmit ok => rfl
    | dashboardMountOk => rfl
    | dashboardMountErr => rfl
    | dashboardFetchSales => rfl
    | dashboardSaveConciliation => rfl
    | conciliationsLoad => rfl
  · intro op s
    cases op <;> simp [storageAfter]

/-- Witness for C8: the dashboard auth-failure path leaves a concrete stored
token in place. -/
theorem C8_token_lifecycle_witness :
    storageAfter AppOp.dashboardMountErr (some "tok123") = some "tok123" :=
  C8_token_lifecycle.1 AppOp.dashboardMountErr (some "tok123")
    (fun tok h => AppOp.noConfusion h)

/-- Witness for C4 at a concrete non-zero `totalSales`. -/
theorem C4_zero_units_avg_witness : avgPriceDisplay 5 0 = "0" :=
  C4_zero_units_avg 5
